import Mathlib

/-!
Shallow embedding of the session/history state model of `src/app.py`
(a single-file Streamlit writing assistant).  The external generation
collaborator is modelled as a function `gen : String → Except String String`
(`Except.error` standing for a raised exception), and the wall clock as a
timestamp string passed in from outside.
-/

namespace TechPixel

/-- One chat message, as stored in `st.session_state.messages`:
a dict with a `role` ("user" / "assistant") and a `content` string. -/
structure Message where
  role : String
  content : String
deriving Repr, DecidableEq

/-- One history record, as built by `add_to_history` (src/app.py:154-162):
a dict with `input`, `output`, `mode` and `timestamp` fields.  The mode
field holds `st.session_state.current_mode`, which is `None` or a string,
hence `Option String`. -/
structure HistoryEntry where
  input : String
  output : String
  mode : Option String
  timestamp : String
deriving Repr, DecidableEq

/-- The per-session mutable state initialised in src/app.py:136-145:
`current_mode` (`None` or a mode string), `messages`, `draft`,
`history` and the `processing` flag. -/
structure SessionState where
  current_mode : Option String
  messages : List Message
  draft : String
  history : List HistoryEntry
  processing : Bool
deriving Repr, DecidableEq

/-- The initial session state (src/app.py:136-145): no mode, empty
transcript, empty draft, empty history, not processing. -/
def initState : SessionState :=
  { current_mode := none, messages := [], draft := "", history := [], processing := false }

/-- Model of `add_to_history(input_text, output_text, mode)` (src/app.py:154-162):
`history.insert(0, {...})` followed by `history = history[:20]`.
The timestamp produced by `datetime.now().strftime(...)` is taken as an
input `ts`. -/
def add_to_history (ts input_text output_text : String) (mode : Option String)
    (s : SessionState) : SessionState :=
  { s with history :=
      (({ input := input_text, output := output_text, mode := mode,
          timestamp := ts } : HistoryEntry) :: s.history).take 20 }

/-- Model of `reset_to_home()` (src/app.py:164-168): `current_mode = None`,
`messages = []`, `draft = ""`.  (`st.rerun()` is pure UI and has no
state effect.) -/
def reset_to_home (s : SessionState) : SessionState :=
  { s with current_mode := none, messages := [], draft := "" }

/-- The constant `GRAMMAR_SYSTEM_PROMPT` (src/app.py:171-179), byte-exact including the
leading/trailing newlines of the triple-quoted string and the trailing
space after "mistakes". -/
def GRAMMAR_SYSTEM_PROMPT : String :=
  "\nYou are a professional grammar editor. Analyze text for:\n1. Grammar/syntax errors\n2. Punctuation mistakes \n3. Sentence structure improvements\n4. Word choice enhancements\n\nReturn corrected text with minimal changes.\n"

/-- The constant `CONTENT_SYSTEM_PROMPT` (src/app.py:181-186), byte-exact. -/
def CONTENT_SYSTEM_PROMPT : String :=
  "\nYou are a professional content creator. Generate well-structured content with:\n1. Clear introduction\n2. Organized body paragraphs\n3. Strong conclusion\n"

/-- The constant `SYNONYM_SYSTEM_PROMPT` (src/app.py:188-193), byte-exact. -/
def SYNONYM_SYSTEM_PROMPT : String :=
  "\nYou are a vocabulary enhancer. Provide:\n1. Standard Synonyms\n2. Contextual Variations\n3. Example Sentences\n"

/-- The body of the `try` block of `process_submission` after the
generation call returned (src/app.py:361-368), together with the
`except`/`finally` clauses (src/app.py:370-373): on success, extend
`messages` with the user draft and the assistant text, record the
exchange in history, clear the draft; on an exception from the call,
change nothing; in all cases `processing = False` at the end. -/
def apply_response (resp : Except String String) (ts : String)
    (s : SessionState) : SessionState :=
  match resp with
  | Except.ok text =>
      let s1 := { s with messages :=
        s.messages ++ [{ role := "user", content := s.draft },
                       { role := "assistant", content := text }] }
      let s2 := add_to_history ts s.draft text s.current_mode s1
      { s2 with draft := "", processing := false }
  | Except.error _ => { s with processing := false }

/-- Model of `process_submission()` (src/app.py:351-374): dispatch on
`current_mode` — `"grammar"`, `"content"`, anything else (including
`None`) falls to the `else` synonym branch — and call the generation
collaborator with `f"{PROMPT}\n\n{draft}"`. -/
def process_submission (gen : String → Except String String) (ts : String)
    (s : SessionState) : SessionState :=
  if s.current_mode = some "grammar" then
    apply_response (gen (GRAMMAR_SYSTEM_PROMPT ++ "\n\n" ++ s.draft)) ts s
  else if s.current_mode = some "content" then
    apply_response (gen (CONTENT_SYSTEM_PROMPT ++ "\n\n" ++ s.draft)) ts s
  else
    apply_response (gen (SYNONYM_SYSTEM_PROMPT ++ "\n\n" ++ s.draft)) ts s

/-- The fixed system prompt keyed by the current mode, as selected by the
`if`/`elif`/`else` chain of `process_submission` (src/app.py:354-359). -/
def select_system_prompt (mode : Option String) : String :=
  if mode = some "grammar" then GRAMMAR_SYSTEM_PROMPT
  else if mode = some "content" then CONTENT_SYSTEM_PROMPT
  else SYNONYM_SYSTEM_PROMPT

/-- Python whitespace characters stripped by `str.strip()`. -/
def isPySpace (c : Char) : Bool :=
  c = ' ' || c = '\t' || c = '\n' || c = '\x0d' || c = '\x0b' || c = '\x0c'

/-- Python `str.strip()`: remove leading and trailing whitespace. -/
def pyStrip (t : String) : String :=
  String.mk (((t.data.dropWhile isPySpace).reverse.dropWhile isPySpace).reverse)

/-- The Submit-button handler of `show_chat_interface`
(src/app.py:338-346): `if st.session_state.draft.strip():
process_submission()` — a submission attempt runs `process_submission`
only when the draft is non-empty after stripping, otherwise nothing
happens. -/
def submit (gen : String → Except String String) (ts : String)
    (s : SessionState) : SessionState :=
  if pyStrip s.draft = "" then s else process_submission gen ts s

/-- Model of `title.split()[0].lower()` for the three mode-button titles
(src/app.py:297): first whitespace-separated word, lower-cased. -/
def title_mode (title : String) : String :=
  String.mk (((title.data.dropWhile isPySpace).takeWhile (fun c => !(isPySpace c))).map
    Char.toLower)

/-- The mode-button handler of `show_mode_selection` (src/app.py:289-302):
set `current_mode` to the first word of the title, lower-cased, and
replace `messages` with the single assistant greeting. -/
def select_mode (title : String) (s : SessionState) : SessionState :=
  { s with
    current_mode := some (title_mode title),
    messages := [{ role := "assistant",
                   content := "I\x27m your " ++ title ++ " assistant. How can I help?" }] }

/-- The three mode-button titles offered on the home screen
(src/app.py:283-287). -/
def modeTitles : List String :=
  ["Grammar Correction", "Content Creation", "Synonym Suggestions"]

/-- One `record` call of the History store: the `(timestamp, input,
output, mode)` data of one `add_to_history` invocation. -/
structure RecordCall where
  ts : String
  input : String
  output : String
  mode : Option String
deriving Repr, DecidableEq

/-- A sequence of `record` calls applied in order to a state. -/
def record_seq (calls : List RecordCall) (s : SessionState) : SessionState :=
  calls.foldl (fun st c => add_to_history c.ts c.input c.output c.mode st) s

/-- The history entry a `record` call constructs. -/
def RecordCall.entry (c : RecordCall) : HistoryEntry :=
  { input := c.input, output := c.output, mode := c.mode, timestamp := c.ts }

/-! ## Helper lemmas (shared) -/

lemma add_to_history_history (c : RecordCall) (s : SessionState) :
    (add_to_history c.ts c.input c.output c.mode s).history =
      (c.entry :: s.history).take 20 := rfl

lemma add_to_history_len_le (c : RecordCall) (s : SessionState) :
    (add_to_history c.ts c.input c.output c.mode s).history.length ≤ 20 := by
  rw [add_to_history_history]
  simp [List.length_take]

lemma add_to_history_head (c : RecordCall) (s : SessionState) :
    (add_to_history c.ts c.input c.output c.mode s).history.head? = some c.entry := by
  rw [add_to_history_history, show (20 : Nat) = 19 + 1 from rfl, List.take_succ_cons]
  rfl

lemma record_seq_cons (c : RecordCall) (cs : List RecordCall) (s : SessionState) :
    record_seq (c :: cs) s = record_seq cs (add_to_history c.ts c.input c.output c.mode s) := rfl

lemma record_seq_len_head (calls : List RecordCall) (s : SessionState) (h : calls ≠ []) :
    (record_seq calls s).history.length ≤ 20 ∧
      (record_seq calls s).history.head? = calls.getLast?.map RecordCall.entry := by
  induction calls generalizing s with
  | nil => exact absurd rfl h
  | cons c cs ih =>
    cases cs with
    | nil =>
      refine ⟨add_to_history_len_le c s, ?_⟩
      show (add_to_history c.ts c.input c.output c.mode s).history.head? = _
      rw [add_to_history_head]
      rfl
    | cons c2 cs2 =>
      rw [record_seq_cons, List.getLast?_cons_cons]
      exact ih _ (by simp)

/-- Lemma: `process_submission` consults the generation collaborator at exactly
the prompt `select_system_prompt mode ++ "\n\n" ++ draft`. -/
lemma process_submission_eq (gen : String → Except String String) (ts : String)
    (s : SessionState) :
    process_submission gen ts s =
      apply_response (gen (select_system_prompt s.current_mode ++ "\n\n" ++ s.draft)) ts s := by
  unfold process_submission select_system_prompt
  split_ifs <;> rfl

lemma submit_eq_of_nonblank (gen : String → Except String String) (ts : String)
    (s : SessionState) (hd : pyStrip s.draft ≠ "") :
    submit gen ts s =
      apply_response (gen (select_system_prompt s.current_mode ++ "\n\n" ++ s.draft)) ts s := by
  rw [submit, if_neg hd, process_submission_eq]

lemma apply_response_ok (t ts : String) (s : SessionState) :
    apply_response (Except.ok t) ts s =
      { current_mode := s.current_mode,
        messages := s.messages ++ [{ role := "user", content := s.draft },
                                   { role := "assistant", content := t }],
        draft := "",
        history := (({ input := s.draft, output := t, mode := s.current_mode,
                       timestamp := ts } : HistoryEntry) :: s.history).take 20,
        processing := false } := rfl

lemma apply_response_error (e ts : String) (s : SessionState) :
    apply_response (Except.error e) ts s = { s with processing := false } := rfl

/-! ## Claim theorems -/

/-- C1: for every non-empty sequence of `record` calls starting from any
state, the History store has length at most 20 and its head is the entry
of the most recent call; moreover a single `record` call inserts the new
entry at index 0 and truncates the list to its first 20 entries. -/
theorem history_record_invariant (calls : List RecordCall) (s : SessionState)
    (h : calls ≠ []) :
    (record_seq calls s).history.length ≤ 20 ∧
    (record_seq calls s).history.head? = calls.getLast?.map RecordCall.entry ∧
    (∀ (c : RecordCall) (st : SessionState),
      (add_to_history c.ts c.input c.output c.mode st).history =
        (c.entry :: st.history).take 20) := by
  obtain ⟨h1, h2⟩ := record_seq_len_head calls s h
  exact ⟨h1, h2, fun c st => add_to_history_history c st⟩

/-- Witness for C1 at a concrete one-call sequence from the initial state. -/
theorem history_record_invariant_witness :
    (record_seq [⟨"2024-01-01 00:00", "in", "out", some "grammar"⟩] initState).history.length ≤ 20 ∧
    (record_seq [⟨"2024-01-01 00:00", "in", "out", some "grammar"⟩] initState).history.head? =
      ([⟨"2024-01-01 00:00", "in", "out", some "grammar"⟩] :
        List RecordCall).getLast?.map RecordCall.entry ∧
    (∀ (c : RecordCall) (st : SessionState),
      (add_to_history c.ts c.input c.output c.mode st).history =
        (c.entry :: st.history).take 20) :=
  history_record_invariant [⟨"2024-01-01 00:00", "in", "out", some "grammar"⟩] initState
    (by simp)

/-- C5: `reset_to_home` sets the mode to unset, clears the transcript and
the draft, leaves the history exactly unchanged, and is idempotent. -/
theorem reset_to_home_spec (s : SessionState) :
    (reset_to_home s).current_mode = none ∧
    (reset_to_home s).messages = [] ∧
    (reset_to_home s).draft = "" ∧
    (reset_to_home s).history = s.history ∧
    reset_to_home (reset_to_home s) = reset_to_home s :=
  ⟨rfl, rfl, rfl, rfl, rfl⟩

/-- Witness for C5 at a concrete state. -/
theorem reset_to_home_spec_witness :
    (reset_to_home initState).current_mode = none ∧
    (reset_to_home initState).messages = [] ∧
    (reset_to_home initState).draft = "" ∧
    (reset_to_home initState).history = initState.history ∧
    reset_to_home (reset_to_home initState) = reset_to_home initState :=
  reset_to_home_spec initState

/-- C7: a submission attempt whose draft strips to the empty string is a
no-op: the whole session state (transcript, history, draft, processing
flag included) is unchanged. -/
theorem submit_blank_draft_noop (gen : String → Except String String) (ts : String)
    (s : SessionState) (hd : pyStrip s.draft = "") :
    submit gen ts s = s := by
  rw [submit, if_pos hd]

/-- Witness for C7 at a whitespace-only draft. -/
theorem submit_blank_draft_noop_witness :
    submit (fun p => Except.ok p) "2024-01-01 00:00"
      { initState with draft := "  \t\n " } = { initState with draft := "  \t\n " } :=
  submit_blank_draft_noop (fun p => Except.ok p) "2024-01-01 00:00"
    { initState with draft := "  \t\n " } (by decide)

/-- C2: a submission with a set mode and a non-blank draft whose
generation call succeeds clears the draft, appends exactly the user
message (prior draft) then the assistant message (generated text) to the
transcript, and grows the history by one entry — or keeps it at 20 with
the oldest entry dropped. -/
theorem submit_success_spec (gen : String → Except String String) (ts : String)
    (s : SessionState) (m t : String)
    (hm : s.current_mode = some m)
    (hd : pyStrip s.draft ≠ "")
    (hg : gen (select_system_prompt s.current_mode ++ "\n\n" ++ s.draft) = Except.ok t) :
    (submit gen ts s).draft = "" ∧
    (submit gen ts s).messages =
      s.messages ++ [{ role := "user", content := s.draft },
                     { role := "assistant", content := t }] ∧
    (submit gen ts s).messages.length = s.messages.length + 2 ∧
    (s.history.length < 20 →
      (submit gen ts s).history.length = s.history.length + 1) ∧
    (s.history.length = 20 →
      (submit gen ts s).history.length = 20 ∧
      (submit gen ts s).history =
        ({ input := s.draft, output := t, mode := s.current_mode,
           timestamp := ts } : HistoryEntry) :: s.history.dropLast) := by
  rw [submit_eq_of_nonblank gen ts s hd, hg, apply_response_ok]
  refine ⟨rfl, rfl, by simp, ?_, ?_⟩
  · intro hlen
    simp only [List.length_take, List.length_cons]
    omega
  · intro hlen
    constructor
    · simp only [List.length_take, List.length_cons, hlen]
      omega
    · rw [show (20 : Nat) = 19 + 1 from rfl, List.take_succ_cons,
        List.dropLast_eq_take, hlen]

/-- Witness for C2: one concrete successful submission from a state with
mode "content" and a one-entry history. -/
theorem submit_success_spec_witness :
    (submit (fun _ => Except.ok "out") "2024-01-01 00:01"
        { current_mode := some "content", messages := [], draft := "hello",
          history := [⟨"a", "b", some "content", "2024-01-01 00:00"⟩],
          processing := false }).draft = "" ∧
    (submit (fun _ => Except.ok "out") "2024-01-01 00:01"
        { current_mode := some "content", messages := [], draft := "hello",
          history := [⟨"a", "b", some "content", "2024-01-01 00:00"⟩],
          processing := false }).messages =
      ([] : List Message) ++ [{ role := "user", content := "hello" },
                              { role := "assistant", content := "out" }] ∧
    (submit (fun _ => Except.ok "out") "2024-01-01 00:01"
        { current_mode := some "content", messages := [], draft := "hello",
          history := [⟨"a", "b", some "content", "2024-01-01 00:00"⟩],
          processing := false }).messages.length = ([] : List Message).length + 2 ∧
    (([⟨"a", "b", some "content", "2024-01-01 00:00"⟩] : List HistoryEntry).length < 20 →
      (submit (fun _ => Except.ok "out") "2024-01-01 00:01"
          { current_mode := some "content", messages := [], draft := "hello",
            history := [⟨"a", "b", some "content", "2024-01-01 00:00"⟩],
            processing := false }).history.length =
        ([⟨"a", "b", some "content", "2024-01-01 00:00"⟩] : List HistoryEntry).length + 1) ∧
    (([⟨"a", "b", some "content", "2024-01-01 00:00"⟩] : List HistoryEntry).length = 20 →
      (submit (fun _ => Except.ok "out") "2024-01-01 00:01"
          { current_mode := some "content", messages := [], draft := "hello",
            history := [⟨"a", "b", some "content", "2024-01-01 00:00"⟩],
            processing := false }).history.length = 20 ∧
      (submit (fun _ => Except.ok "out") "2024-01-01 00:01"
          { current_mode := some "content", messages := [], draft := "hello",
            history := [⟨"a", "b", some "content", "2024-01-01 00:00"⟩],
            processing := false }).history =
        ({ input := "hello", output := "out", mode := some "content",
           timestamp := "2024-01-01 00:01" } : HistoryEntry) ::
          ([⟨"a", "b", some "content", "2024-01-01 00:00"⟩] :
            List HistoryEntry).dropLast) :=
  submit_success_spec (fun _ => Except.ok "out") "2024-01-01 00:01"
    { current_mode := some "content", messages := [], draft := "hello",
      history := [⟨"a", "b", some "content", "2024-01-01 00:00"⟩],
      processing := false }
    "content" "out" rfl (by decide) rfl

/-- C3: a submission whose generation call raises an error leaves the
transcript, the history and the draft exactly as before, and the
processing flag is false afterward on every exit path (for any outcome
of the generation call). -/
theorem submit_failure_spec (gen : String → Except String String) (ts err : String)
    (s : SessionState)
    (hd : pyStrip s.draft ≠ "")
    (hg : gen (select_system_prompt s.current_mode ++ "\n\n" ++ s.draft) =
      Except.error err) :
    (submit gen ts s).messages = s.messages ∧
    (submit gen ts s).history = s.history ∧
    (submit gen ts s).draft = s.draft ∧
    (submit gen ts s).processing = false ∧
    (∀ gen2 : String → Except String String, (submit gen2 ts s).processing = false) := by
  rw [submit_eq_of_nonblank gen ts s hd, hg, apply_response_error]
  refine ⟨rfl, rfl, rfl, rfl, fun gen2 => ?_⟩
  rw [submit_eq_of_nonblank gen2 ts s hd]
  cases gen2 (select_system_prompt s.current_mode ++ "\n\n" ++ s.draft) with
  | ok t => rw [apply_response_ok]
  | error e => rw [apply_response_error]

/-- Witness for C3: one concrete failing submission. -/
theorem submit_failure_spec_witness :
    (submit (fun _ => Except.error "boom") "2024-01-01 00:00"
        { current_mode := some "grammar", messages := [⟨"assistant", "hi"⟩],
          draft := "x", history := [], processing := false }).messages =
      [(⟨"assistant", "hi"⟩ : Message)] ∧
    (submit (fun _ => Except.error "boom") "2024-01-01 00:00"
        { current_mode := some "grammar", messages := [⟨"assistant", "hi"⟩],
          draft := "x", history := [], processing := false }).history = [] ∧
    (submit (fun _ => Except.error "boom") "2024-01-01 00:00"
        { current_mode := some "grammar", messages := [⟨"assistant", "hi"⟩],
          draft := "x", history := [], processing := false }).draft = "x" ∧
    (submit (fun _ => Except.error "boom") "2024-01-01 00:00"
        { current_mode := some "grammar", messages := [⟨"assistant", "hi"⟩],
          draft := "x", history := [], processing := false }).processing = false ∧
    (∀ gen2 : String → Except String String,
      (submit gen2 "2024-01-01 00:00"
          { current_mode := some "grammar", messages := [⟨"assistant", "hi"⟩],
            draft := "x", history := [], processing := false }).processing = false) :=
  submit_failure_spec (fun _ => Except.error "boom") "2024-01-01 00:00" "boom"
    { current_mode := some "grammar", messages := [⟨"assistant", "hi"⟩],
      draft := "x", history := [], processing := false }
    (by decide) rfl

/-- C4 counterexample: a submission attempt whose generation call fails
does NOT clear the draft — after a failing submit of draft "x" the draft
is still "x", not "" (src/app.py:367 sits inside the `try` block after
the generation call, so it is skipped on an exception). -/
theorem draft_cleared_unconditionally_cex :
    (submit (fun _ => Except.error "boom") "2024-01-01 00:00"
        { current_mode := some "grammar", messages := [], draft := "x",
          history := [], processing := false }).draft ≠ "" := by
  decide

/-- C4 amended: after a submission attempt with a non-blank draft, the
draft is "" exactly when the generation call succeeded; when the call
fails the draft is left unchanged (the clearing is on the success path
only, not unconditional). -/
theorem draft_cleared_on_success_only (gen : String → Except String String)
    (ts : String) (s : SessionState) (hd : pyStrip s.draft ≠ "") :
    (submit gen ts s).draft =
      match gen (select_system_prompt s.current_mode ++ "\n\n" ++ s.draft) with
      | Except.ok _ => ""
      | Except.error _ => s.draft := by
  rw [submit_eq_of_nonblank gen ts s hd]
  cases gen (select_system_prompt s.current_mode ++ "\n\n" ++ s.draft) with
  | ok t => rw [apply_response_ok]
  | error e => rw [apply_response_error]

/-- Witness for the amended C4 at a concrete failing submission. -/
theorem draft_cleared_on_success_only_witness :
    (submit (fun _ => Except.error "down") "2024-01-01 00:00"
        { current_mode := some "synonym", messages := [], draft := "word",
          history := [], processing := false }).draft =
      match (fun _ => Except.error "down" : String → Except String String)
          (select_system_prompt (some "synonym") ++ "\n\n" ++ "word") with
      | Except.ok _ => ""
      | Except.error _ => "word" :=
  draft_cleared_on_success_only (fun _ => Except.error "down") "2024-01-01 00:00"
    { current_mode := some "synonym", messages := [], draft := "word",
      history := [], processing := false }
    (by decide)

set_option maxRecDepth 10000 in
/-- C6: a submission with a set mode and a non-blank draft passes the
generation collaborator exactly one prompt, the fixed system prompt
keyed by the mode concatenated with the draft separated by a blank line;
and the key maps grammar/content/synonym to the three fixed prompts. -/
theorem submit_prompt_selection (gen : String → Except String String)
    (ts : String) (s : SessionState) (m : String)
    (hm : s.current_mode = some m)
    (hd : pyStrip s.draft ≠ "") :
    submit gen ts s =
      apply_response (gen (select_system_prompt s.current_mode ++ "\n\n" ++ s.draft)) ts s ∧
    select_system_prompt (some "grammar") = GRAMMAR_SYSTEM_PROMPT ∧
    select_system_prompt (some "content") = CONTENT_SYSTEM_PROMPT ∧
    select_system_prompt (some "synonym") = SYNONYM_SYSTEM_PROMPT :=
  ⟨submit_eq_of_nonblank gen ts s hd, by decide, by decide, by decide⟩

/-- Witness for C6 at a concrete grammar-mode state. -/
theorem submit_prompt_selection_witness :
    submit (fun _ => Except.ok "y") "2024-01-01 00:00"
        { current_mode := some "grammar", messages := [], draft := "x",
          history := [], processing := false } =
      apply_response ((fun _ => Except.ok "y" : String → Except String String)
          (select_system_prompt (some "grammar") ++ "\n\n" ++ "x")) "2024-01-01 00:00"
        { current_mode := some "grammar", messages := [], draft := "x",
          history := [], processing := false } ∧
    select_system_prompt (some "grammar") = GRAMMAR_SYSTEM_PROMPT ∧
    select_system_prompt (some "content") = CONTENT_SYSTEM_PROMPT ∧
    select_system_prompt (some "synonym") = SYNONYM_SYSTEM_PROMPT :=
  submit_prompt_selection (fun _ => Except.ok "y") "2024-01-01 00:00"
    { current_mode := some "grammar", messages := [], draft := "x",
      history := [], processing := false }
    "grammar" rfl (by decide)

set_option maxRecDepth 10000 in
/-- C8: concrete scenario — mode grammar, draft
"He go to school yesterday.", collaborator stubbed to return
"He went to school yesterday.": after submit the transcript is exactly
the user message then the assistant message, the newest history entry
has the draft as input, and the draft is cleared. -/
theorem scenario_grammar_submit :
    (submit (fun _ => Except.ok "He went to school yesterday.") "2024-01-01 00:00"
        { current_mode := some "grammar", messages := [],
          draft := "He go to school yesterday.", history := [],
          processing := false }).messages =
      [{ role := "user", content := "He go to school yesterday." },
       { role := "assistant", content := "He went to school yesterday." }] ∧
    ((submit (fun _ => Except.ok "He went to school yesterday.") "2024-01-01 00:00"
        { current_mode := some "grammar", messages := [],
          draft := "He go to school yesterday.", history := [],
          processing := false }).history.head?).map HistoryEntry.input =
      some "He go to school yesterday." ∧
    (submit (fun _ => Except.ok "He went to school yesterday.") "2024-01-01 00:00"
        { current_mode := some "grammar", messages := [],
          draft := "He go to school yesterday.", history := [],
          processing := false }).draft = "" := by
  decide

/-- C9: selecting any of the three modes from the home screen replaces
the transcript with exactly one assistant greeting (length 1, not 0),
sets the mode to grammar, content or synonym accordingly, and leaves
the draft and the history unchanged. -/
theorem select_mode_spec (s : SessionState) (title : String)
    (h : title ∈ modeTitles) :
    (select_mode title s).messages =
      [{ role := "assistant",
         content := "I\x27m your " ++ title ++ " assistant. How can I help?" }] ∧
    (select_mode title s).messages.length = 1 ∧
    (select_mode title s).draft = s.draft ∧
    (select_mode title s).history = s.history ∧
    ((select_mode title s).current_mode = some "grammar" ∨
     (select_mode title s).current_mode = some "content" ∨
     (select_mode title s).current_mode = some "synonym") := by
  refine ⟨rfl, rfl, rfl, rfl, ?_⟩
  simp only [modeTitles, List.mem_cons, List.not_mem_nil, or_false] at h
  rcases h with rfl | rfl | rfl
  · left
    show some (title_mode "Grammar Correction") = some "grammar"
    decide
  · right; left
    show some (title_mode "Content Creation") = some "content"
    decide
  · right; right
    show some (title_mode "Synonym Suggestions") = some "synonym"
    decide

/-- Witness for C9 at the grammar button and the initial state. -/
theorem select_mode_spec_witness :
    (select_mode "Grammar Correction" initState).messages =
      [{ role := "assistant",
         content := "I\x27m your " ++ "Grammar Correction" ++ " assistant. How can I help?" }] ∧
    (select_mode "Grammar Correction" initState).messages.length = 1 ∧
    (select_mode "Grammar Correction" initState).draft = initState.draft ∧
    (select_mode "Grammar Correction" initState).history = initState.history ∧
    ((select_mode "Grammar Correction" initState).current_mode = some "grammar" ∨
     (select_mode "Grammar Correction" initState).current_mode = some "content" ∨
     (select_mode "Grammar Correction" initState).current_mode = some "synonym") :=
  select_mode_spec initState "Grammar Correction" (by decide)

/-- C10: the submission dispatcher is total: whenever the current mode is
neither "grammar" nor "content" — including the unset mode `none` — it
falls through to the synonym branch and issues the generation call with
the synonym system prompt, rather than rejecting or raising. -/
theorem dispatch_fallthrough_synonym (gen : String → Except String String)
    (ts : String) (s : SessionState)
    (h1 : s.current_mode ≠ some "grammar")
    (h2 : s.current_mode ≠ some "content") :
    process_submission gen ts s =
      apply_response (gen (SYNONYM_SYSTEM_PROMPT ++ "\n\n" ++ s.draft)) ts s := by
  unfold process_submission
  rw [if_neg h1, if_neg h2]

/-- Witness for C10 at the unset mode `none`. -/
theorem dispatch_fallthrough_synonym_witness :
    process_submission (fun _ => Except.error "e") "2024-01-01 00:00" initState =
      apply_response ((fun _ => Except.error "e" : String → Except String String)
        (SYNONYM_SYSTEM_PROMPT ++ "\n\n" ++ initState.draft)) "2024-01-01 00:00" initState :=
  dispatch_fallthrough_synonym (fun _ => Except.error "e") "2024-01-01 00:00" initState
    (by decide) (by decide)

end TechPixel
